import Mathlib

/-!
Shallow embedding of the conversational query orchestration core of the
`ai_bi_agent_app` repository: `src/langchain_tools.py` (GenieQueryTool,
ResponseEnhancementTool) and `src/langchain_agents.py`
(BusinessIntelligenceAgent).  Network I/O is modelled by oracle
environments: each HTTP interaction point of the Python code takes its
outcome from an oracle function, and the code's observable control flow,
returned strings and state mutations are translated statement by
statement.  Time inside the polling loop is idealised: each iteration of
`_wait_for_response` costs one fixed 2-second sleep, so a wait budget of
`max_wait` seconds buys `(max_wait + 1) / 2` poll iterations.
-/

/-! ## String helpers -/

/-- Python's `"sep".join(parts)`: parts joined with the separator. -/
def joinSep (sep : String) : List String → String
  | [] => ""
  | [a] => a
  | a :: b :: rest => a ++ sep ++ joinSep sep (b :: rest)

/-- Python's `s.rstrip('/')`: all trailing slashes removed. -/
def rstripSlashes (s : String) : String :=
  String.mk ((s.data.reverse.dropWhile (fun c => c == '/')).reverse)

/-- Whether the first list is an initial segment of the second (Boolean,
executable). -/
def charsStart : List Char → List Char → Bool
  | [], _ => true
  | _ :: _, [] => false
  | a :: as, b :: bs => (a == b) && charsStart as bs

/-- Whether `pat` occurs contiguously inside `l` (Boolean, executable). -/
def charsOccur (pat : List Char) : List Char → Bool
  | [] => pat.isEmpty
  | c :: t => charsStart pat (c :: t) || charsOccur pat t

/-- Python's `s.lower()` (structural, so that proofs can evaluate it). -/
def strToLower (s : String) : String :=
  String.mk (s.data.map Char.toLower)

/-- Python's substring test `pat in s`. -/
def strContains (s pat : String) : Bool :=
  charsOccur pat.data s.data

/-- Python's rendering of an optional string inside an f-string:
`None` becomes the text "None". -/
def optStr : Option String → String
  | none => "None"
  | some s => s

/-- Python truthiness of an `Optional[str]`: `None` and `""` are falsy. -/
def optTruthy : Option String → Bool
  | none => false
  | some s => !(s == "")

/-! ## Data model -/

/-- A JSON scalar inside a `data_array` row of a statement result. -/
inductive Value where
  | vstr (s : String)
  | vnum (n : Int)
deriving DecidableEq, Repr

/-- Rendering of one scalar, used only by the abstract table rendering. -/
def Value.render : Value → String
  | .vstr s => s
  | .vnum n => toString n

/-- The ResultTable: `pd.DataFrame(data_array, columns=columns)` keeps the
column names and the rows exactly as fetched. -/
structure DataFrame where
  columns : List String
  data : List (List Value)
deriving DecidableEq, Repr

/-- Abstract stand-in for `pandas.DataFrame.to_string`: some deterministic
textual rendering of the table (no claim depends on its exact format). -/
def DataFrame.render (df : DataFrame) : String :=
  joinSep "\n" (joinSep " " df.columns :: df.data.map (fun r => joinSep " " (r.map Value.render)))

/-- Python's `df.empty` for the tables this code builds: no rows. -/
def DataFrame.isEmptyDF (df : DataFrame) : Bool :=
  df.data.isEmpty

/-- The mutable attributes of a `GenieQueryTool` instance.  `last_error`
models the `_last_error` attribute: `none` means the attribute does not
exist on the object (Python `hasattr` is false), which is how every
instance starts, since `__init__` never creates it. -/
structure GenieState where
  result_dataframe : Option DataFrame
  last_sql_query : Option String
  last_query_results : Option String
  conversation_id : Option String
  last_error : Option String
deriving DecidableEq, Repr

/-- The state of a freshly constructed `GenieQueryTool` (`__init__`). -/
def GenieState.init : GenieState :=
  { result_dataframe := none, last_sql_query := none, last_query_results := none,
    conversation_id := none, last_error := none }

/-- The normalized result dictionary returned by
`BusinessIntelligenceAgent.query` / `_direct_tool_execution`. -/
structure QueryResult where
  response : String
  dataframe : Option DataFrame
  sql_query : Option String
  conversation_id : Option String
  success : Bool
deriving DecidableEq, Repr

/-! ## Backend observation types (oracle alphabets) -/

/-- The JSON body of a successful `start-conversation` call:
`response.json()` with its `conversation_id` and `message_id` fields
(either may be absent). -/
structure StartBody where
  conversation_id : Option String
  message_id : Option String
deriving DecidableEq, Repr

/-- What one `requests.post` inside `_start_conversation` observes.
`ok` is an HTTP 200 with a parsed JSON body; `httpCode` is any non-200
status with the response text; the rest are the caught request
exceptions. -/
inductive StartOutcome where
  | ok (body : StartBody)
  | httpCode (code : Nat) (text : String)
  | timeout
  | connError
  | exc (msg : String)
deriving DecidableEq, Repr

/-- What one `requests.post` inside `_create_message` observes: `ok` is an
HTTP 200 whose JSON `id` field may be absent; everything else makes the
loop move on. -/
inductive CreateOutcome where
  | ok (id : Option String)
  | other
deriving DecidableEq, Repr

/-- A `query_result` attachment's `query` object: its SQL text and the
optional `statement_id`. -/
structure QueryInfo where
  query : String
  statement_id : Option String
deriving DecidableEq, Repr

/-- One attachment of a Genie message. -/
structure Attachment where
  type : String
  query : Option QueryInfo
deriving DecidableEq, Repr

/-- The JSON of a message-status poll that returned HTTP 200. -/
structure MessageData where
  status : String
  content : String
  attachments : List Attachment
deriving DecidableEq, Repr

/-- What one poll iteration inside `_wait_for_response` observes. -/
inductive PollOutcome where
  | ok (md : MessageData)
  | httpCode (code : Nat)
  | exc
deriving DecidableEq, Repr

/-- What one `requests.get` inside `_get_query_results` observes.
`okResult` is an HTTP 200 whose JSON carries `result.data_array` and a
readable schema; `okNoResult` an HTTP 200 without them; the rest make the
loop continue. -/
inductive StmtOutcome where
  | okResult (columns : List String) (data_array : List (List Value))
  | okNoResult
  | httpCode (code : Nat)
  | exc
deriving DecidableEq, Repr

/-- The network environment one execution of `GenieQueryTool._run` reads:
per-URL outcomes for the start-conversation and create-message posts and
the statement-result fetches, and a per-iteration outcome for the
status-poll loop (the backend's status may change between polls). -/
structure GenieEnv where
  start : String → StartOutcome
  createMsg : String → CreateOutcome
  poll : Nat → PollOutcome
  stmt : String → StmtOutcome

/-! ## GenieQueryTool -/

/-- The configuration of a `GenieQueryTool` (its `__init__` already strips
trailing slashes from the host). -/
structure GenieQueryTool where
  host : String
  token : String
  space_id : String
deriving DecidableEq, Repr

/-- Constructor: `GenieQueryTool(host, token, space_id)`. -/
def GenieQueryTool.make (host token space_id : String) : GenieQueryTool :=
  { host := rstripSlashes host, token := token, space_id := space_id }

/-- The four endpoint path variants `_start_conversation` probes, in
source order. -/
def GenieQueryTool.startEndpoints (t : GenieQueryTool) : List String :=
  [ t.host ++ "/api/2.0/genie/spaces/" ++ t.space_id ++ "/start-conversation",
    t.host ++ "/api/2.1/genie/spaces/" ++ t.space_id ++ "/start-conversation",
    t.host ++ "/api/2.0/genie/spaces/" ++ t.space_id ++ "/conversations",
    t.host ++ "/api/2.1/genie/spaces/" ++ t.space_id ++ "/conversations" ]

/-- The two endpoint variants `_create_message` probes. -/
def GenieQueryTool.msgEndpoints (t : GenieQueryTool) (conversation_id : String) : List String :=
  [ t.host ++ "/api/2.0/genie/spaces/" ++ t.space_id ++ "/conversations/" ++ conversation_id ++ "/messages",
    t.host ++ "/api/2.1/genie/spaces/" ++ t.space_id ++ "/conversations/" ++ conversation_id ++ "/messages" ]

/-- The message-status URL polled by `_wait_for_response`. -/
def GenieQueryTool.pollUrl (t : GenieQueryTool) (conversation_id message_id : String) : String :=
  t.host ++ "/api/2.0/genie/spaces/" ++ t.space_id ++ "/conversations/" ++ conversation_id ++ "/messages/" ++ message_id

/-- The two statement-result endpoints `_get_query_results` probes. -/
def GenieQueryTool.stmtEndpoints (t : GenieQueryTool) (statement_id : String) : List String :=
  [ t.host ++ "/api/2.0/sql/statements/" ++ statement_id,
    t.host ++ "/api/2.1/sql/statements/" ++ statement_id ]

/-- The loop body of `_start_conversation` over the remaining endpoint
variants.  Returns (the HTTP-200 body if one was reached, the final value
of the local variable `last_error`, the URLs actually requested, in
order).  A 200 returns at once; 401 and 403 `break` out of the loop; 404,
other HTTP codes and the caught exceptions set `last_error` and continue. -/
def startLoop (t : GenieQueryTool) (oracle : String → StartOutcome)
    (lastErr : Option String) : List String → Option StartBody × Option String × List String
  | [] => (none, lastErr, [])
  | url :: rest =>
    match oracle url with
    | .ok body => (some body, lastErr, [url])
    | .httpCode code text =>
      if code == 401 then
        (none, some "Authentication failed (401). Check your DATABRICKS_TOKEN permissions.", [url])
      else if code == 403 then
        (none, some ("Access forbidden (403). Check if you have access to Genie space " ++ t.space_id.take 8 ++ "..."), [url])
      else if code == 404 then
        let r := startLoop t oracle (some ("Genie space not found (404). Check if space ID " ++ t.space_id.take 8 ++ "... exists.")) rest
        (r.1, r.2.1, url :: r.2.2)
      else
        let r := startLoop t oracle (some ("HTTP " ++ toString code ++ ": " ++ text.take 100)) rest
        (r.1, r.2.1, url :: r.2.2)
    | .timeout =>
      let r := startLoop t oracle (some ("Request timeout. Check network connection to " ++ t.host)) rest
      (r.1, r.2.1, url :: r.2.2)
    | .connError =>
      let r := startLoop t oracle (some ("Connection error. Check if " ++ t.host ++ " is accessible.")) rest
      (r.1, r.2.1, url :: r.2.2)
    | .exc msg =>
      let r := startLoop t oracle (some ("Request error: " ++ msg)) rest
      (r.1, r.2.1, url :: r.2.2)

/-- Result of one run of `_start_conversation`. -/
structure StartRun where
  result : Option StartBody
  lastErrorLocal : Option String
  state : GenieState
  trace : List String
deriving Repr

/-- `GenieQueryTool._start_conversation`.  When no endpoint variant
returned 200, the code runs `if hasattr(self, '_last_error'):
object.__setattr__(self, '_last_error', last_error)` — since `__init__`
never creates `_last_error`, the attribute exists only if it already
existed, so the computed `last_error` text is stored only in that
(unreachable from a fresh instance) case. -/
def GenieQueryTool.start_conversation (t : GenieQueryTool) (oracle : String → StartOutcome)
    (s : GenieState) : StartRun :=
  let r := startLoop t oracle none t.startEndpoints
  match r.1 with
  | some body => { result := some body, lastErrorLocal := r.2.1, state := s, trace := r.2.2 }
  | none =>
    let s' := if s.last_error.isSome then { s with last_error := r.2.1 } else s
    { result := none, lastErrorLocal := r.2.1, state := s', trace := r.2.2 }

/-- The loop of `_create_message`: first HTTP 200 returns its JSON `id`
field (which may itself be absent); everything else continues; exhaustion
returns `None`. -/
def createLoop (oracle : String → CreateOutcome) : List String → Option String × List String
  | [] => (none, [])
  | url :: rest =>
    match oracle url with
    | .ok id => (id, [url])
    | .other =>
      let r := createLoop oracle rest
      (r.1, url :: r.2)

/-- `GenieQueryTool._create_message`. -/
def GenieQueryTool.create_message (t : GenieQueryTool) (oracle : String → CreateOutcome)
    (conversation_id : String) : Option String × List String :=
  createLoop oracle (t.msgEndpoints conversation_id)

/-- The loop of `_get_query_results`: the first endpoint answering 200
with a `result.data_array` stores the DataFrame and the rendered preview
and returns; every other outcome continues; exhaustion changes nothing. -/
def getResultsLoop (oracle : String → StmtOutcome) (s : GenieState) :
    List String → GenieState × List String
  | [] => (s, [])
  | url :: rest =>
    match oracle url with
    | .okResult cols rows =>
      let df : DataFrame := { columns := cols, data := rows }
      ({ s with result_dataframe := some df, last_query_results := some df.render }, [url])
    | _ =>
      let r := getResultsLoop oracle s rest
      (r.1, url :: r.2)

/-- `GenieQueryTool._get_query_results`. -/
def GenieQueryTool.get_query_results (t : GenieQueryTool) (oracle : String → StmtOutcome)
    (statement_id : String) (s : GenieState) : GenieState × List String :=
  getResultsLoop oracle s (t.stmtEndpoints statement_id)

/-- The attachment scan of the COMPLETED branch of `_wait_for_response`:
for each attachment of type `query_result` the SQL text is stored (absent
pieces default to `""`), and a truthy `statement_id` triggers the
statement-result fetch. -/
def GenieQueryTool.processAttachment (t : GenieQueryTool) (oracle : String → StmtOutcome)
    (acc : GenieState × List String) (a : Attachment) : GenieState × List String :=
  if a.type == "query_result" then
    let s1 := { acc.1 with last_sql_query := some ((a.query.map QueryInfo.query).getD "") }
    match a.query.bind QueryInfo.statement_id with
    | some sid =>
      if sid == "" then (s1, acc.2)
      else
        let r := t.get_query_results oracle sid s1
        (r.1, acc.2 ++ r.2)
    | none => (s1, acc.2)
  else acc

/-- The diagnostic text `_wait_for_response` returns when the wait budget
elapses. -/
def timedOutMsg (maxWait : Nat) : String :=
  "Query timed out after " ++ toString maxWait ++ " seconds. This may indicate: 1) Complex query requiring more time, 2) Network connectivity issues, 3) Genie service overload. Try a simpler question or check your connection."

/-- The polling loop of `_wait_for_response`: iteration `i` polls the
message status; COMPLETED returns the content after scanning attachments,
FAILED returns a fixed failure text, anything else (other status, non-200,
exception) sleeps 2 seconds and retries; an exhausted budget returns the
timeout diagnostic.  `fuel` is the number of iterations the wait budget
buys. -/
def GenieQueryTool.waitLoop (t : GenieQueryTool) (env : GenieEnv) (maxWait : Nat)
    (cid mid : String) (i : Nat) (fuel : Nat) (s : GenieState) : String × GenieState × List String :=
  match fuel with
  | 0 => (timedOutMsg maxWait, s, [])
  | fuel' + 1 =>
    let url := t.pollUrl cid mid
    match env.poll i with
    | .ok md =>
      if md.status == "COMPLETED" then
        let r := md.attachments.foldl (t.processAttachment env.stmt) (s, [])
        (md.content, r.1, url :: r.2)
      else if md.status == "FAILED" then
        ("Query failed to execute", s, [url])
      else
        let r := t.waitLoop env maxWait cid mid (i + 1) fuel' s
        (r.1, r.2.1, url :: r.2.2)
    | _ =>
      let r := t.waitLoop env maxWait cid mid (i + 1) fuel' s
      (r.1, r.2.1, url :: r.2.2)

/-- Poll iterations a wait budget of `maxWait` seconds buys at one
2-second sleep per iteration (the loop runs while elapsed < maxWait). -/
def pollBudget (maxWait : Nat) : Nat :=
  (maxWait + 1) / 2

/-- `GenieQueryTool._wait_for_response` with its default `max_wait = 30`. -/
def GenieQueryTool.wait_for_response (t : GenieQueryTool) (env : GenieEnv)
    (cid mid : String) (s : GenieState) : String × GenieState × List String :=
  t.waitLoop env 30 cid mid 0 (pollBudget 30) s

/-- `GenieQueryTool._mock_response`: the deterministic local-mode answer. -/
def GenieQueryTool.mock_response (_t : GenieQueryTool) (query : String) : String :=
  let ql := strToLower query
  if strContains ql "describe" && strContains ql "dataset" then
    "Dataset Description:\n- **Sales Data**: Contains transaction records with customer_id, product_id, amount, date\n- **Customer Data**: Customer demographics including age, location, segment  \n- **Product Data**: Product catalog with categories, prices, descriptions\n- **Campaign Data**: Marketing campaign performance metrics\n- **Time Range**: Data spans 2020-2024 with daily granularity\n- **Total Records**: Approximately 2.5M transactions across all tables\n- **Key Metrics**: Revenue, customer acquisition, product performance, regional trends"
  else
    "Here's the analysis for your query about " ++ query ++ ". The data shows various patterns in tenure bands, campaigns, and sales metrics that can be visualized effectively."

/-- The helpful replacement `_run` substitutes when the wait result
mentions a timeout. -/
def timeoutHelp (query : String) : String :=
  "Genie query timed out. The question '" ++ query ++ "' may be too complex or there may be connectivity issues. Try: 1) A simpler, more specific question, 2) Check your network connection, 3) Verify your Genie space is active."

/-- The post-processing `_run` applies to the wait result: the timeout
rewrite first, then the `or "No response received from Genie"` default
for a falsy (empty) result. -/
def postProcess (query g : String) : String :=
  if (!(g == "")) && strContains g "Query timed out" then timeoutHelp query
  else if g == "" then "No response received from Genie"
  else g

/-- The tail of `_run` after a message id has been obtained. -/
def GenieQueryTool.afterMessage (t : GenieQueryTool) (env : GenieEnv) (query : String)
    (mid : Option String) (s : GenieState) (tr : List String) : String × GenieState × List String :=
  if optTruthy mid then
    let r := t.wait_for_response env (optStr s.conversation_id) (mid.getD "") s
    (postProcess query r.1, r.2.1, tr ++ r.2.2)
  else
    ("Failed to send message to Genie", s, tr)

/-- `GenieQueryTool._run`: mock mode when any backend coordinate is
missing, placeholder-configuration errors, then start-or-continue a
conversation, wait, and post-process.  Returns the answer text, the tool
state after the call, and, in order, every URL an HTTP request was sent
to. -/
def GenieQueryTool.run (t : GenieQueryTool) (env : GenieEnv) (query : String)
    (conversation_id : Option String) (s : GenieState) : String × GenieState × List String :=
  if t.host == "" || t.token == "" || t.space_id == "" then
    (t.mock_response query, s, [])
  else if t.token == "YOUR_DATABRICKS_TOKEN_HERE" then
    ("Configuration Error: DATABRICKS_TOKEN is still set to placeholder value. Please update app.yaml with your actual Databricks personal access token.", s, [])
  else if t.space_id == "YOUR_GENIE_SPACE_ID_HERE" then
    ("Configuration Error: GENIE_SPACE_ID is still set to placeholder value. Please update app.yaml with your actual Genie space ID.", s, [])
  else if optTruthy conversation_id then
    let cid := conversation_id.getD ""
    let s1 := { s with conversation_id := some cid }
    let r := t.create_message env.createMsg cid
    t.afterMessage env query r.1 s1 r.2
  else
    let sr := t.start_conversation env.start s
    match sr.result with
    | none =>
      ("Failed to start conversation with Genie. " ++ sr.state.last_error.getD "Unknown error", sr.state, sr.trace)
    | some body =>
      let s1 := { sr.state with conversation_id := body.conversation_id }
      t.afterMessage env query body.message_id s1 sr.trace

/-! ## ResponseEnhancementTool -/

/-- The JSON body of an enhancement-endpoint response as the extraction
code distinguishes it: a dict with its optional `choices` (each entry's
`message.content`), `generated_text` and `predictions` fields, or a list
whose entries carry an optional `generated_text` field. -/
inductive EnhanceBody where
  | dict (choices : Option (List String)) (generated_text : Option String)
      (predictions : Option (List String))
  | list (elems : List (Option String))
deriving DecidableEq, Repr

/-- What one enhancement post observes: an HTTP response with its status
and body, or a caught request exception. -/
inductive EnhanceOutcome where
  | resp (status : Nat) (body : EnhanceBody)
  | exc
deriving DecidableEq, Repr

/-- The response-shape extraction of `ResponseEnhancementTool._run`, in
source order: non-empty `choices`, then a present `generated_text`, then
a non-empty list (whose first element's missing `generated_text` defaults
to the original draft), then non-empty `predictions`; `none` means no
recognizable shape, so the payload-format loop continues. -/
def extractEnhanced (original : String) : EnhanceBody → Option String
  | .dict (some (c :: _)) _ _ => some c
  | .dict _ (some g) _ => some g
  | .dict _ none (some (p :: _)) => some p
  | .dict _ none _ => none
  | .list (e :: _) => some (e.getD original)
  | .list [] => none

/-- The configuration of a `ResponseEnhancementTool`. -/
structure ResponseEnhancementTool where
  host : String
  token : String
  endpoint_name : String
  endpoint_url : String
deriving DecidableEq, Repr

/-- Constructor: `ResponseEnhancementTool(host, token, endpoint_name)`;
the invocation URL is empty when no endpoint name is configured. -/
def ResponseEnhancementTool.make (host token endpoint_name : String) : ResponseEnhancementTool :=
  { host := rstripSlashes host, token := token, endpoint_name := endpoint_name,
    endpoint_url :=
      if endpoint_name == "" then ""
      else rstripSlashes host ++ "/serving-endpoints/" ++ endpoint_name ++ "/invocations" }

/-- `ResponseEnhancementTool._create_enhancement_prompt`. -/
def ResponseEnhancementTool.create_enhancement_prompt
    (original_response sql_query query_results : String) : String :=
  let p := "\nPlease enhance the following business intelligence response to make it more comprehensive and actionable:\n\nOriginal Response:\n" ++ original_response ++ "\n\n"
  let p := if sql_query == "" then p else p ++ "\nSQL Query Executed:\n" ++ sql_query ++ "\n\n"
  let p := if query_results == "" then p else p ++ "\nQuery Results Sample:\n" ++ query_results ++ "\n\n"
  p ++ "\nPlease provide an enhanced response that:\n1. Uses clear, business-friendly language\n2. Highlights key insights and patterns\n3. Provides actionable recommendations\n4. Explains the business implications\n5. Maintains accuracy while adding context\n\nEnhanced Response:"

/-- The payload-format loop of `ResponseEnhancementTool._run`: format `i`
is posted (the oracle sees the format index and the prompt); an HTTP 200
with a recognizable shape returns the extracted text; anything else —
non-200, exception, or an unrecognizable 200 body — moves to the next
format; exhaustion yields nothing. -/
def tryFormats (oracle : Nat → String → EnhanceOutcome) (prompt original : String) :
    Nat → Nat → Option String
  | _, 0 => none
  | i, n + 1 =>
    match oracle i prompt with
    | .resp status body =>
      if status == 200 then
        match extractEnhanced original body with
        | some r => some r
        | none => tryFormats oracle prompt original (i + 1) n
      else tryFormats oracle prompt original (i + 1) n
    | .exc => tryFormats oracle prompt original (i + 1) n

/-- `ResponseEnhancementTool._run`: identity when the endpoint is
unconfigured; otherwise the two payload formats are tried in order and
the original draft is returned whenever none yields a usable response.
The Python wraps everything in try/except returning the original, so this
function is total and never fails. -/
def ResponseEnhancementTool.run (t : ResponseEnhancementTool)
    (oracle : Nat → String → EnhanceOutcome)
    (original_response sql_query query_results : String) : String :=
  if t.endpoint_url == "" then original_response
  else
    let prompt := ResponseEnhancementTool.create_enhancement_prompt original_response sql_query query_results
    match tryFormats oracle prompt original_response 0 2 with
    | some r => r
    | none => original_response

/-! ## BusinessIntelligenceAgent (the Orchestrator) -/

/-- The configuration of a `BusinessIntelligenceAgent`. -/
structure BusinessIntelligenceAgent where
  databricks_host : String
  databricks_token : String
  genie_space_id : String
  warehouse_id : String
  serving_endpoint_name : String
deriving DecidableEq, Repr

/-- The `GenieQueryTool` the agent's `__init__` builds. -/
def BusinessIntelligenceAgent.genieTool (o : BusinessIntelligenceAgent) : GenieQueryTool :=
  GenieQueryTool.make o.databricks_host o.databricks_token o.genie_space_id

/-- The `ResponseEnhancementTool` the agent's `__init__` builds — only
when a serving endpoint name is configured. -/
def BusinessIntelligenceAgent.enhancementTool (o : BusinessIntelligenceAgent) :
    Option ResponseEnhancementTool :=
  if o.serving_endpoint_name == "" then none
  else some (ResponseEnhancementTool.make o.databricks_host o.databricks_token o.serving_endpoint_name)

/-- What `self.agent_executor.invoke` does: it either returns an output
string or raises an exception carrying a message (iteration/time-limit
and parsing errors arrive this way from the framework). -/
inductive AgentOutcome where
  | ok (out : String)
  | exc (msg : String)
deriving DecidableEq, Repr

/-- The environment one `BusinessIntelligenceAgent.query` call reads:
per-direct-attempt Genie network environments and enhancement oracles, a
per-attempt flag injecting the exception the `except` branch of
`_direct_tool_execution` catches (`none` = the body runs normally), the
agent-framework outcome, and the genie-tool state transformation the
agent run's internal tool calls produce. -/
structure OrchEnv where
  genieAt : Nat → GenieEnv
  enhanceAt : Nat → Nat → String → EnhanceOutcome
  directExc : Nat → Option String
  agent : AgentOutcome
  agentEffect : GenieState → GenieState

/-- The events of one orchestration, for the fallback state machine:
which execution paths were attempted, in order. -/
inductive OrchEvent where
  | directAttempt (n : Nat)
  | agenticAttempt
deriving DecidableEq, Repr

/-- `BusinessIntelligenceAgent._direct_tool_execution` (attempt number
`n` selects this attempt's oracles): run the genie tool directly, read
its dataframe / SQL / conversation id, wrap a failure-describing tool
text in an issue notice, otherwise assemble the parts and optionally
enhance; any exception in the body is caught and becomes a
`success=false` result. -/
def BusinessIntelligenceAgent.direct_tool_execution (o : BusinessIntelligenceAgent)
    (env : OrchEnv) (n : Nat) (question : String) (s : GenieState) : QueryResult × GenieState :=
  match env.directExc n with
  | some e =>
    ({ response := "I encountered an issue with direct tool execution: " ++ e ++ ". Please check your Databricks configuration and try again.",
       dataframe := none, sql_query := none, conversation_id := none, success := false }, s)
  | none =>
    let gr := o.genieTool.run (env.genieAt n) question none s
    let genie_result := gr.1
    let s' := gr.2.1
    let dataframe := s'.result_dataframe
    let sql_query := s'.last_sql_query
    let conversation_id := s'.conversation_id
    let response :=
      if strContains genie_result "Failed" || strContains genie_result "Error" || strContains genie_result "Configuration" then
        "I encountered an issue accessing the business intelligence data: " ++ genie_result
      else
        let parts := ["Based on your question '" ++ question ++ "', here are the results from the business intelligence system:", genie_result]
        let parts := parts ++
          (match sql_query with
           | some q => if q == "" then [] else ["Generated SQL Query:\n```sql\n" ++ q ++ "\n```"]
           | none => [])
        let parts := parts ++
          (match dataframe with
           | some df => if df.isEmptyDF then [] else ["Data Results:\n" ++ df.render]
           | none => [])
        let base := joinSep "\n\n" parts
        match o.enhancementTool with
        | some et => et.run (env.enhanceAt n) base "" ""
        | none => base
    ({ response := response, dataframe := dataframe, sql_query := sql_query,
       conversation_id := conversation_id, success := true }, s')

/-- `BusinessIntelligenceAgent.query`: the direct attempt always runs
first and is returned when it succeeds; otherwise the agent framework is
invoked — an output yields a `success=true` result (with a canned
response if the output is empty), an exception whose message mentions an
iteration or time limit triggers exactly one direct retry whose result is
returned as-is, and any other exception yields the final `success=false`
fallback (with a parsing-specific message when applicable).  The third
component records the attempted paths in order. -/
def BusinessIntelligenceAgent.query (o : BusinessIntelligenceAgent) (env : OrchEnv)
    (question : String) (s : GenieState) : QueryResult × GenieState × List OrchEvent :=
  let d0 := o.direct_tool_execution env 0 question s
  if d0.1.success then
    (d0.1, d0.2, [.directAttempt 0])
  else
    match env.agent with
    | .ok out =>
      let s1 := env.agentEffect d0.2
      let response :=
        if out == "" then
          "I processed your question about '" ++ question ++ "' but encountered technical difficulties. Please check your Databricks configuration."
        else out
      ({ response := response, dataframe := s1.result_dataframe, sql_query := s1.last_sql_query,
         conversation_id := s1.conversation_id, success := true }, s1,
       [.directAttempt 0, .agenticAttempt])
    | .exc msg =>
      let s1 := env.agentEffect d0.2
      if strContains (strToLower msg) "iteration limit" || strContains (strToLower msg) "time limit" then
        let d1 := o.direct_tool_execution env 1 question s1
        (d1.1, d1.2, [.directAttempt 0, .agenticAttempt, .directAttempt 1])
      else
        let em :=
          if strContains (strToLower msg) "parsing" then
            "There was an issue understanding the query format. Please try rephrasing your question."
          else msg
        ({ response := "I encountered an issue processing your query: " ++ em ++ ". Please check your Databricks configuration and try again.",
           dataframe := none, sql_query := none, conversation_id := none, success := false }, s1,
         [.directAttempt 0, .agenticAttempt])

/-! ## Observation predicates -/

/-- Whether a poll observation is an HTTP 200 whose message status is
COMPLETED. -/
def PollOutcome.isCompletedObs : PollOutcome → Bool
  | .ok md => md.status == "COMPLETED"
  | _ => false

/-- Whether a poll observation is an HTTP 200 whose message status is
FAILED. -/
def PollOutcome.isFailedObs : PollOutcome → Bool
  | .ok md => md.status == "FAILED"
  | _ => false

/-- Whether a poll observation shows a terminal message status. -/
def PollOutcome.isTerminalObs (p : PollOutcome) : Bool :=
  p.isCompletedObs || p.isFailedObs

/-- The message content of a poll observation (empty when there is no
parsed message). -/
def PollOutcome.contentObs : PollOutcome → String
  | .ok md => md.content
  | _ => ""

/-- Whether an enhancement-post observation is an HTTP 200 with a
recognizable response shape (one the extraction returns a value for). -/
def enhanceFormatUsable (original : String) : EnhanceOutcome → Bool
  | .resp status body => status == 200 && (extractEnhanced original body).isSome
  | .exc => false

/-- The outcomes on which the `_start_conversation` probe loop stops at
the current endpoint variant: HTTP 200 returns, 401 and 403 break. -/
def probeStops : StartOutcome → Bool
  | .ok _ => true
  | .httpCode code _ => code == 401 || code == 403
  | _ => false

/-- Specification-side description of the endpoint-probe order: the URLs
are attempted in list order, inclusively up to the first one whose
outcome stops the loop. -/
def specProbeTrace (oracle : String → StartOutcome) : List String → List String
  | [] => []
  | u :: rest =>
    if probeStops (oracle u) then [u] else u :: specProbeTrace oracle rest

/-- Specification-side description of the probe result: HTTP 200 at the
current variant returns its body; 401/403 abort with nothing; any other
outcome moves to the next variant; exhaustion yields nothing. -/
def specProbeResult (oracle : String → StartOutcome) : List String → Option StartBody
  | [] => none
  | u :: rest =>
    match oracle u with
    | .ok body => some body
    | .httpCode code _ =>
      if code == 401 || code == 403 then none else specProbeResult oracle rest
    | _ => specProbeResult oracle rest

/-! ## Concrete scenario environments for the claims -/

/-- A Genie network environment in which every request fails; unused in
mock-mode scenarios. -/
def trivialGenieEnv : GenieEnv :=
  { start := fun _ => .exc "down", createMsg := fun _ => .other,
    poll := fun _ => .exc, stmt := fun _ => .exc }

/-- C1 counterexample orchestrator: no backend coordinates (mock mode)
but a configured enhancement endpoint. -/
def orchC1x : BusinessIntelligenceAgent :=
  { databricks_host := "", databricks_token := "", genie_space_id := "",
    warehouse_id := "", serving_endpoint_name := "ep" }

/-- C1 counterexample environment: the enhancement endpoint answers 200
with a chat body whose first choice content is the empty string. -/
def envC1x : OrchEnv :=
  { genieAt := fun _ => trivialGenieEnv,
    enhanceAt := fun _ _ _ => .resp 200 (.dict (some [""]) none none),
    directExc := fun _ => none,
    agent := .ok "unused",
    agentEffect := id }

/-- C1 witness environment: mock mode, no enhancement, nothing raises. -/
def envC1w : OrchEnv :=
  { genieAt := fun _ => trivialGenieEnv,
    enhanceAt := fun _ _ _ => .exc,
    directExc := fun _ => none,
    agent := .ok "unused",
    agentEffect := id }

/-- C2 witness tool. -/
def toolC2w : GenieQueryTool := GenieQueryTool.make "https://h" "tok" "SP"

/-- C2 witness environment: every poll raises, so no terminal status ever
arrives. -/
def envC2w : GenieEnv :=
  { start := fun _ => .exc "down", createMsg := fun _ => .other,
    poll := fun _ => .exc, stmt := fun _ => .exc }

/-- C3 orchestrator (no enhancement endpoint). -/
def orchC3x : BusinessIntelligenceAgent :=
  { databricks_host := "https://h", databricks_token := "tok", genie_space_id := "SP",
    warehouse_id := "wh", serving_endpoint_name := "" }

/-- C3 counterexample environment: both direct attempts raise and the
agent framework raises its iteration-limit error. -/
def envC3x : OrchEnv :=
  { genieAt := fun _ => trivialGenieEnv,
    enhanceAt := fun _ _ _ => .exc,
    directExc := fun n => if n == 0 then some "boom0" else some "boom1",
    agent := .exc "Agent stopped due to iteration limit.",
    agentEffect := id }

/-- C4 tool: fully configured. -/
def genieC4 : GenieQueryTool := GenieQueryTool.make "https://h" "tok" "SPACE123"

/-- C4 failing environment: every start-conversation endpoint variant
answers HTTP 401. -/
def envC4 : GenieEnv :=
  { start := fun _ => .httpCode 401 "unauthorized", createMsg := fun _ => .other,
    poll := fun _ => .exc, stmt := fun _ => .exc }

/-- C6 orchestrator. -/
def orchC6 : BusinessIntelligenceAgent :=
  { databricks_host := "https://h", databricks_token := "tok", genie_space_id := "SP",
    warehouse_id := "wh", serving_endpoint_name := "" }

/-- C6 environment: conversation starts on the first variant, the message
completes at the first poll with one `query_result` attachment whose
query text is `qt` and whose statement `st1` yields columns `a`, `b` and
the single row `[1, 2]`. -/
def envC6 (qt : String) : OrchEnv :=
  { genieAt := fun _ =>
      { start := fun u =>
          if u == "https://h/api/2.0/genie/spaces/SP/start-conversation" then
            .ok { conversation_id := some "conv1", message_id := some "msg1" }
          else .exc "no",
        createMsg := fun _ => .other,
        poll := fun _ =>
          .ok { status := "COMPLETED", content := "All done",
                attachments := [{ type := "query_result",
                                  query := some { query := qt, statement_id := some "st1" } }] },
        stmt := fun u =>
          if u == "https://h/api/2.0/sql/statements/st1" then
            .okResult ["a", "b"] [[.vnum 1, .vnum 2]]
          else .exc },
    enhanceAt := fun _ _ _ => .exc,
    directExc := fun _ => none,
    agent := .ok "unused",
    agentEffect := id }

/-- C7 orchestrator. -/
def orchC7 : BusinessIntelligenceAgent :=
  { databricks_host := "https://h", databricks_token := "tok", genie_space_id := "SP",
    warehouse_id := "wh", serving_endpoint_name := "" }

/-- C7 environment: conversation starts on the first variant and the
message completes at the first poll with content `c` and no attachments. -/
def envC7 (c : String) : OrchEnv :=
  { genieAt := fun _ =>
      { start := fun u =>
          if u == "https://h/api/2.0/genie/spaces/SP/start-conversation" then
            .ok { conversation_id := some "conv1", message_id := some "msg1" }
          else .exc "no",
        createMsg := fun _ => .other,
        poll := fun _ => .ok { status := "COMPLETED", content := c, attachments := [] },
        stmt := fun _ => .exc },
    enhanceAt := fun _ _ _ => .exc,
    directExc := fun _ => none,
    agent := .ok "unused",
    agentEffect := id }

/-- C8 orchestrator: host and space configured, token empty. -/
def orchC8 : BusinessIntelligenceAgent :=
  { databricks_host := "https://demo", databricks_token := "", genie_space_id := "S1",
    warehouse_id := "wh", serving_endpoint_name := "" }

/-- C8 witness environment. -/
def envC8w : OrchEnv :=
  { genieAt := fun _ => trivialGenieEnv,
    enhanceAt := fun _ _ _ => .exc,
    directExc := fun _ => none,
    agent := .ok "unused",
    agentEffect := id }

/-- C9 tool. -/
def genieC9 : GenieQueryTool := GenieQueryTool.make "https://h" "tok" "SP"

/-- C9 counterexample oracle: the first endpoint variant answers 401, any
other variant would answer HTTP 200. -/
def oracleC9 : String → StartOutcome :=
  fun u =>
    if u == "https://h/api/2.0/genie/spaces/SP/start-conversation" then .httpCode 401 "no"
    else .ok { conversation_id := some "c", message_id := some "m" }

/-- C10 witness orchestrator: the token still carries its placeholder
value, so the genie tool reports a configuration error without raising. -/
def orchC10w : BusinessIntelligenceAgent :=
  { databricks_host := "https://h", databricks_token := "YOUR_DATABRICKS_TOKEN_HERE",
    genie_space_id := "SP", warehouse_id := "wh", serving_endpoint_name := "" }

/-- C10 witness environment. -/
def envC10w : OrchEnv :=
  { genieAt := fun _ => trivialGenieEnv,
    enhanceAt := fun _ _ _ => .exc,
    directExc := fun _ => none,
    agent := .ok "unused",
    agentEffect := id }

example : rstripSlashes "https://demo//" = "https://demo" := by decide
example : strContains "abc Failed xyz" "Failed" = true := by decide
example : strContains "all good" "Failed" = false := by decide

/-! ## Lemmas about the string helpers -/

theorem strExt (s t : String) (h : s.data = t.data) : s = t := by
  cases s
  cases t
  cases h
  rfl

theorem strEqEmpty_of_data (s : String) (h : s.data = []) : s = "" :=
  strExt s "" h

theorem append_ne_empty_left (a b : String) (h : a ≠ "") : a ++ b ≠ "" := by
  intro he
  have hd : a.data ++ b.data = [] := by
    have hc := congrArg String.data he
    simpa [String.data_append] using hc
  exact h (strEqEmpty_of_data a (List.append_eq_nil.mp hd).1)

theorem ne_empty_of_beq_false (s : String) (h : (s == "") = false) : s ≠ "" :=
  ne_of_beq_false h

theorem charsStart_extend : ∀ (pat l rest : List Char),
    charsStart pat l = true → charsStart pat (l ++ rest) = true
  | [], _, _, _ => rfl
  | _ :: _, [], _, h => by simp [charsStart] at h
  | a :: as, b :: bs, rest, h => by
    simp only [charsStart, Bool.and_eq_true] at h
    simp only [List.cons_append, charsStart, Bool.and_eq_true]
    exact ⟨h.1, charsStart_extend as bs rest h.2⟩

theorem charsStart_self : ∀ l : List Char, charsStart l l = true
  | [] => rfl
  | _ :: as => by simp [charsStart, charsStart_self as]

theorem charsOccur_of_start : ∀ (pat l : List Char),
    charsStart pat l = true → charsOccur pat l = true
  | [], [], _ => rfl
  | _ :: _, [], h => by simp [charsStart] at h
  | pat, c :: t, h => by simp [charsOccur, h]

theorem charsOccur_append_right : ∀ (a b pat : List Char),
    charsOccur pat b = true → charsOccur pat (a ++ b) = true
  | [], _, _, h => h
  | c :: t, b, pat, h => by
    simp only [List.cons_append, charsOccur, Bool.or_eq_true]
    exact Or.inr (charsOccur_append_right t b pat h)

theorem strContains_append_left (a b pat : String) (h : charsStart pat.data a.data = true) :
    strContains (a ++ b) pat = true := by
  have h1 := charsStart_extend pat.data a.data b.data h
  have h2 := charsOccur_of_start pat.data (a.data ++ b.data) h1
  simpa [strContains, String.data_append] using h2

theorem strContains_append_right (a b pat : String) (h : strContains b pat = true) :
    strContains (a ++ b) pat = true := by
  have h1 := charsOccur_append_right a.data b.data pat.data h
  simpa [strContains, String.data_append] using h1

theorem strContains_lit_left (lit e rest pat : String) (h : charsStart pat.data lit.data = true) :
    strContains (lit ++ e ++ rest) pat = true := by
  apply strContains_append_left (lit ++ e) rest
  rw [String.data_append]
  exact charsStart_extend _ _ _ h

theorem strContains_suffix_self (a b : String) : strContains (a ++ b) b = true :=
  strContains_append_right a b b (charsOccur_of_start b.data b.data (charsStart_self b.data))

theorem strAppend_assoc (a b c : String) : a ++ b ++ c = a ++ (b ++ c) := by
  apply strExt
  simp [String.data_append, List.append_assoc]

theorem joinSep_ne_empty (sep a : String) (l : List String) (h : a ≠ "") :
    joinSep sep (a :: l) ≠ "" := by
  cases l with
  | nil => exact h
  | cons b r => exact append_ne_empty_left _ _ (append_ne_empty_left _ _ h)

/-! ## Non-emptiness of every GenieQueryTool answer -/

theorem mock_response_ne_empty (t : GenieQueryTool) (q : String) : t.mock_response q ≠ "" := by
  simp only [GenieQueryTool.mock_response]
  split
  · decide
  · exact append_ne_empty_left _ _ (append_ne_empty_left _ _ (by decide))

theorem timeoutHelp_ne_empty (q : String) : timeoutHelp q ≠ "" := by
  unfold timeoutHelp
  exact append_ne_empty_left _ _ (append_ne_empty_left _ _ (by decide))

theorem postProcess_ne_empty (q g : String) : postProcess q g ≠ "" := by
  unfold postProcess
  split
  · exact timeoutHelp_ne_empty q
  · split
    · decide
    · next h => exact fun he => h (by rw [he]; rfl)

theorem afterMessage_ne_empty (t : GenieQueryTool) (env : GenieEnv) (q : String)
    (mid : Option String) (s : GenieState) (tr : List String) :
    (t.afterMessage env q mid s tr).1 ≠ "" := by
  simp only [GenieQueryTool.afterMessage]
  split
  · exact postProcess_ne_empty _ _
  · exact ne_empty_of_beq_false _ rfl

theorem genieRun_ne_empty (t : GenieQueryTool) (env : GenieEnv) (q : String)
    (c : Option String) (s : GenieState) : (t.run env q c s).1 ≠ "" := by
  simp only [GenieQueryTool.run]
  split
  · exact mock_response_ne_empty t q
  · split
    · exact ne_empty_of_beq_false _ rfl
    · split
      · exact ne_empty_of_beq_false _ rfl
      · split
        · exact afterMessage_ne_empty _ _ _ _ _ _
        · split
          · exact append_ne_empty_left _ _ (by decide)
          · exact afterMessage_ne_empty _ _ _ _ _ _

/-! ## Lemmas about the orchestrator's paths -/

theorem direct_success_of_no_exc (o : BusinessIntelligenceAgent) (env : OrchEnv) (n : Nat)
    (q : String) (s : GenieState) (h : env.directExc n = none) :
    (o.direct_tool_execution env n q s).1.success = true := by
  simp only [BusinessIntelligenceAgent.direct_tool_execution, h]

theorem direct_fail_record (o : BusinessIntelligenceAgent) (env : OrchEnv) (n : Nat)
    (q : String) (s : GenieState) (e : String) (h : env.directExc n = some e) :
    (o.direct_tool_execution env n q s).1 =
      { response := "I encountered an issue with direct tool execution: " ++ e ++ ". Please check your Databricks configuration and try again.",
        dataframe := none, sql_query := none, conversation_id := none, success := false } := by
  simp only [BusinessIntelligenceAgent.direct_tool_execution, h]

theorem direct_fail_iff (o : BusinessIntelligenceAgent) (env : OrchEnv) (n : Nat)
    (q : String) (s : GenieState) :
    (o.direct_tool_execution env n q s).1.success = false ↔ ∃ e, env.directExc n = some e := by
  cases h : env.directExc n with
  | none => simp [direct_success_of_no_exc o env n q s h]
  | some e => simp [direct_fail_record o env n q s e h]

theorem direct_response_ne_empty (o : BusinessIntelligenceAgent) (env : OrchEnv) (n : Nat)
    (q : String) (s : GenieState) (hserv : o.serving_endpoint_name = "") :
    (o.direct_tool_execution env n q s).1.response ≠ "" := by
  have htool : o.enhancementTool = none := by
    simp [BusinessIntelligenceAgent.enhancementTool, hserv]
  cases h : env.directExc n with
  | some e =>
    rw [direct_fail_record o env n q s e h]
    exact append_ne_empty_left _ _ (append_ne_empty_left _ _ (by decide))
  | none =>
    simp only [BusinessIntelligenceAgent.direct_tool_execution, h, htool]
    split
    · exact append_ne_empty_left _ _ (by decide)
    · exact joinSep_ne_empty _ _ _ (append_ne_empty_left _ _ (append_ne_empty_left _ _ (by decide)))

theorem query_of_direct_success (o : BusinessIntelligenceAgent) (env : OrchEnv)
    (q : String) (s : GenieState) (h : (o.direct_tool_execution env 0 q s).1.success = true) :
    (o.query env q s).1 = (o.direct_tool_execution env 0 q s).1 ∧
    (o.query env q s).2.2 = [.directAttempt 0] := by
  simp [BusinessIntelligenceAgent.query, h]

theorem query_agent_ok_proj (o : BusinessIntelligenceAgent) (env : OrchEnv)
    (q : String) (s : GenieState) (out : String)
    (h : (o.direct_tool_execution env 0 q s).1.success = false)
    (ha : env.agent = .ok out) :
    (o.query env q s).1.success = true ∧
    (o.query env q s).1.response =
      (if out == "" then
        "I processed your question about '" ++ q ++ "' but encountered technical difficulties. Please check your Databricks configuration."
      else out) ∧
    (o.query env q s).2.2 = [.directAttempt 0, .agenticAttempt] := by
  simp [BusinessIntelligenceAgent.query, h, ha]

theorem query_retry_proj (o : BusinessIntelligenceAgent) (env : OrchEnv)
    (q : String) (s : GenieState) (msg : String)
    (h : (o.direct_tool_execution env 0 q s).1.success = false)
    (ha : env.agent = .exc msg)
    (hlim : (strContains (strToLower msg) "iteration limit" || strContains (strToLower msg) "time limit") = true) :
    (o.query env q s).1 =
      (o.direct_tool_execution env 1 q (env.agentEffect (o.direct_tool_execution env 0 q s).2)).1 ∧
    (o.query env q s).2.2 = [.directAttempt 0, .agenticAttempt, .directAttempt 1] := by
  simp [BusinessIntelligenceAgent.query, h, ha, hlim]

theorem query_fallback_proj (o : BusinessIntelligenceAgent) (env : OrchEnv)
    (q : String) (s : GenieState) (msg : String)
    (h : (o.direct_tool_execution env 0 q s).1.success = false)
    (ha : env.agent = .exc msg)
    (hlim : (strContains (strToLower msg) "iteration limit" || strContains (strToLower msg) "time limit") = false) :
    (o.query env q s).1 =
      { response := "I encountered an issue processing your query: " ++
          (if strContains (strToLower msg) "parsing" then
            "There was an issue understanding the query format. Please try rephrasing your question."
          else msg) ++ ". Please check your Databricks configuration and try again.",
        dataframe := none, sql_query := none, conversation_id := none, success := false } ∧
    (o.query env q s).2.2 = [.directAttempt 0, .agenticAttempt] := by
  simp [BusinessIntelligenceAgent.query, h, ha, hlim]

/-! ## C1 -/

/-- C1 (amended): `BusinessIntelligenceAgent.query` always returns a
QueryResult with its Boolean success flag set; when no enhancement
endpoint is configured, `success = true` implies the response text is
non-empty, and `success = false` implies the response text is non-empty
and contains the failure-class notice "I encountered an issue".  (With a
configured enhancement endpoint an HTTP 200 carrying empty generated
text yields `success = true` with an empty response — see the
counterexample.) -/
theorem query_success_response (o : BusinessIntelligenceAgent) (env : OrchEnv)
    (q : String) (s : GenieState) (hserv : o.serving_endpoint_name = "") :
    ((o.query env q s).1.success = true → (o.query env q s).1.response ≠ "") ∧
    ((o.query env q s).1.success = false →
      (o.query env q s).1.response ≠ "" ∧
      strContains (o.query env q s).1.response "I encountered an issue" = true) := by
  by_cases hd : (o.direct_tool_execution env 0 q s).1.success = true
  · have hq := (query_of_direct_success o env q s hd).1
    rw [hq, hd]
    exact ⟨fun _ => direct_response_ne_empty o env 0 q s hserv, fun hf => Bool.noConfusion hf⟩
  · have hd' : (o.direct_tool_execution env 0 q s).1.success = false := by
      cases hb : (o.direct_tool_execution env 0 q s).1.success
      · rfl
      · exact absurd hb hd
    cases ha : env.agent with
    | ok out =>
      obtain ⟨hs, hr, _⟩ := query_agent_ok_proj o env q s out hd' ha
      rw [hs, hr]
      refine ⟨fun _ => ?_, fun hf => Bool.noConfusion hf⟩
      split
      · exact append_ne_empty_left _ _ (append_ne_empty_left _ _ (by decide))
      · next hout => exact ne_empty_of_beq_false _ (by simpa using hout)
    | exc msg =>
      by_cases hlim : (strContains (strToLower msg) "iteration limit" || strContains (strToLower msg) "time limit") = true
      · obtain ⟨hq1, _⟩ := query_retry_proj o env q s msg hd' ha hlim
        rw [hq1]
        cases h1 : env.directExc 1 with
        | none =>
          rw [direct_success_of_no_exc o env 1 q _ h1]
          exact ⟨fun _ => direct_response_ne_empty o env 1 q _ hserv, fun hf => Bool.noConfusion hf⟩
        | some e =>
          rw [direct_fail_record o env 1 q _ e h1]
          refine ⟨fun hs => Bool.noConfusion hs, fun _ => ⟨?_, ?_⟩⟩
          · exact append_ne_empty_left _ _ (append_ne_empty_left _ _ (by decide))
          · exact strContains_lit_left _ e _ _ (by decide)
      · have hlim' : (strContains (strToLower msg) "iteration limit" || strContains (strToLower msg) "time limit") = false := by
          cases hb : (strContains (strToLower msg) "iteration limit" || strContains (strToLower msg) "time limit")
          · rfl
          · exact absurd hb hlim
        obtain ⟨hq1, _⟩ := query_fallback_proj o env q s msg hd' ha hlim'
        rw [hq1]
        refine ⟨fun hs => Bool.noConfusion hs, fun _ => ⟨?_, ?_⟩⟩
        · exact append_ne_empty_left _ _ (append_ne_empty_left _ _ (by decide))
        · exact strContains_lit_left _ _ _ _ (by decide)

/-- C1 counterexample: with an enhancement endpoint configured and a
backend answering HTTP 200 whose first chat choice has empty content,
`query` returns `success = true` with a completely empty response text,
so "success = true implies non-empty response" fails as stated. -/
theorem query_empty_response_cex :
    (orchC1x.query envC1x "sales" GenieState.init).1.success = true ∧
    (orchC1x.query envC1x "sales" GenieState.init).1.response = "" := by
  constructor
  · rfl
  · decide

/-- C1 witness: the amended theorem applied to the mock-mode
orchestrator with no enhancement endpoint. -/
theorem query_success_response_witness :
    ((orchC8.query envC1w "sales" GenieState.init).1.success = true →
      (orchC8.query envC1w "sales" GenieState.init).1.response ≠ "") ∧
    ((orchC8.query envC1w "sales" GenieState.init).1.success = false →
      (orchC8.query envC1w "sales" GenieState.init).1.response ≠ "" ∧
      strContains (orchC8.query envC1w "sales" GenieState.init).1.response "I encountered an issue" = true) :=
  query_success_response orchC8 envC1w "sales" GenieState.init rfl

/-! ## C2 -/

theorem failedObs_not_completed (md : MessageData) (h : (md.status == "FAILED") = true) :
    (md.status == "COMPLETED") = false := by
  have he : md.status = "FAILED" := eq_of_beq h
  rw [he]
  rfl

theorem timedOutMsg_contains (maxWait : Nat) :
    strContains (timedOutMsg maxWait) "Try a simpler question" = true := by
  unfold timedOutMsg
  apply strContains_append_right
  decide

theorem waitLoop_completed (t : GenieQueryTool) (env : GenieEnv) (maxWait : Nat)
    (cid mid : String) (i n : Nat) (s : GenieState) (md : MessageData)
    (hp : env.poll i = .ok md) (hc : (md.status == "COMPLETED") = true) :
    (t.waitLoop env maxWait cid mid i (n + 1) s).1 = md.content := by
  unfold GenieQueryTool.waitLoop
  rw [hp]
  simp [hc]

theorem waitLoop_failed (t : GenieQueryTool) (env : GenieEnv) (maxWait : Nat)
    (cid mid : String) (i n : Nat) (s : GenieState) (md : MessageData)
    (hp : env.poll i = .ok md) (hc : (md.status == "COMPLETED") = false)
    (hf : (md.status == "FAILED") = true) :
    (t.waitLoop env maxWait cid mid i (n + 1) s).1 = "Query failed to execute" := by
  unfold GenieQueryTool.waitLoop
  rw [hp]
  simp [hc, hf]

theorem waitLoop_step (t : GenieQueryTool) (env : GenieEnv) (maxWait : Nat)
    (cid mid : String) (i n : Nat) (s : GenieState)
    (h : (env.poll i).isTerminalObs = false) :
    (t.waitLoop env maxWait cid mid i (n + 1) s).1 =
      (t.waitLoop env maxWait cid mid (i + 1) n s).1 := by
  cases hp : env.poll i with
  | ok md =>
    rw [hp] at h
    simp only [PollOutcome.isTerminalObs, PollOutcome.isCompletedObs, PollOutcome.isFailedObs,
      Bool.or_eq_false_iff] at h
    simp [GenieQueryTool.waitLoop, hp, h.1, h.2]
  | httpCode c => simp [GenieQueryTool.waitLoop, hp]
  | exc => simp [GenieQueryTool.waitLoop, hp]

/-- C2: the polling loop never hands back a message observed in a
non-terminal state.  For any poll history: if poll `i + j` is the first
terminal observation within the budget, the loop returns exactly the
message content when that observation is COMPLETED and exactly the fixed
failure text when it is FAILED; and if the whole budget passes without a
terminal observation, the loop returns the timeout diagnostic, which
contains the suggestion "Try a simpler question".  The final conjunct
pins the default instantiation: `_wait_for_response` runs this loop with
`max_wait = 30` seconds, i.e. 15 polls at one 2-second sleep each. -/
theorem poll_terminal_only (t : GenieQueryTool) (env : GenieEnv) (maxWait : Nat)
    (cid mid : String) :
    ∀ (fuel i : Nat) (s : GenieState),
    (((∀ j, j < fuel → (env.poll (i + j)).isTerminalObs = false) →
        (t.waitLoop env maxWait cid mid i fuel s).1 = timedOutMsg maxWait) ∧
      (∀ j, j < fuel → (∀ k, k < j → (env.poll (i + k)).isTerminalObs = false) →
        ((env.poll (i + j)).isCompletedObs = true →
          (t.waitLoop env maxWait cid mid i fuel s).1 = (env.poll (i + j)).contentObs) ∧
        ((env.poll (i + j)).isFailedObs = true →
          (t.waitLoop env maxWait cid mid i fuel s).1 = "Query failed to execute"))) ∧
    strContains (timedOutMsg maxWait) "Try a simpler question" = true ∧
    t.wait_for_response env cid mid s = t.waitLoop env 30 cid mid 0 15 s := by
  intro fuel
  induction fuel with
  | zero =>
    intro i s
    exact ⟨⟨fun _ => rfl, fun j hj => absurd hj (Nat.not_lt_zero j)⟩,
      timedOutMsg_contains maxWait, rfl⟩
  | succ n ih =>
    intro i s
    refine ⟨⟨?_, ?_⟩, timedOutMsg_contains maxWait, rfl⟩
    · intro hall
      have h0 : (env.poll i).isTerminalObs = false := by simpa using hall 0 (Nat.succ_pos n)
      rw [waitLoop_step t env maxWait cid mid i n s h0]
      apply ((ih (i + 1) s).1).1
      intro j hj
      have hh := hall (j + 1) (by omega)
      have hidx : i + (j + 1) = i + 1 + j := by omega
      rwa [hidx] at hh
    · intro j hj hpre
      cases j with
      | zero =>
        simp only [Nat.add_zero]
        cases hp : env.poll i with
        | ok md =>
          constructor
          · intro hcomp
            simp only [PollOutcome.isCompletedObs] at hcomp
            rw [waitLoop_completed t env maxWait cid mid i n s md hp hcomp]
            rfl
          · intro hfail
            simp only [PollOutcome.isFailedObs] at hfail
            rw [waitLoop_failed t env maxWait cid mid i n s md hp
              (failedObs_not_completed md hfail) hfail]
        | httpCode c =>
          exact ⟨fun hcomp => Bool.noConfusion hcomp, fun hfail => Bool.noConfusion hfail⟩
        | exc =>
          exact ⟨fun hcomp => Bool.noConfusion hcomp, fun hfail => Bool.noConfusion hfail⟩
      | succ j' =>
        have h0 : (env.poll i).isTerminalObs = false := by simpa using hpre 0 (Nat.succ_pos j')
        rw [waitLoop_step t env maxWait cid mid i n s h0]
        have hidx : i + (j' + 1) = i + 1 + j' := by omega
        rw [hidx]
        apply ((ih (i + 1) s).1).2 j' (by omega)
        intro k hk
        have hh := hpre (k + 1) (by omega)
        have hidx2 : i + (k + 1) = i + 1 + k := by omega
        rwa [hidx2] at hh

/-! ## C3 -/

/-- C3 (amended): `query` follows the fallback state machine — the
direct attempt always runs first; a successful direct attempt is
terminal (no agentic attempt); the agentic attempt runs exactly when the
direct attempt failed; the direct sequence is re-run exactly once, and
only when the agentic attempt raised an iteration-limit or time-limit
error; and when that retry also fails, the returned QueryResult has
`success = false` with a response that names the direct-tool-execution
failure (not the iteration-limit / time-limit / parsing class the claim
stated — see the counterexample). -/
theorem orchestrator_fallback_machine (o : BusinessIntelligenceAgent) (env : OrchEnv)
    (q : String) (s : GenieState) :
    ((o.query env q s).2.2).head? = some (.directAttempt 0) ∧
    ((o.direct_tool_execution env 0 q s).1.success = true →
      (o.query env q s).2.2 = [.directAttempt 0] ∧
      (o.query env q s).1 = (o.direct_tool_execution env 0 q s).1) ∧
    (OrchEvent.agenticAttempt ∈ (o.query env q s).2.2 ↔
      (o.direct_tool_execution env 0 q s).1.success = false) ∧
    (OrchEvent.directAttempt 1 ∈ (o.query env q s).2.2 ↔
      ((o.direct_tool_execution env 0 q s).1.success = false ∧
        ∃ m, env.agent = .exc m ∧
          (strContains (strToLower m) "iteration limit" || strContains (strToLower m) "time limit") = true)) ∧
    (∀ m e, env.agent = .exc m →
      (strContains (strToLower m) "iteration limit" || strContains (strToLower m) "time limit") = true →
      (o.direct_tool_execution env 0 q s).1.success = false →
      env.directExc 1 = some e →
      (o.query env q s).1.success = false ∧
      (o.query env q s).1.response =
        "I encountered an issue with direct tool execution: " ++ e ++ ". Please check your Databricks configuration and try again.") := by
  by_cases hd : (o.direct_tool_execution env 0 q s).1.success = true
  · obtain ⟨hq, hev⟩ := query_of_direct_success o env q s hd
    refine ⟨by rw [hev]; rfl, fun _ => ⟨hev, hq⟩, ?_, ?_, ?_⟩
    · rw [hev, hd]; simp
    · rw [hev, hd]; simp
    · intro m e _ _ h0 _
      rw [h0] at hd
      exact Bool.noConfusion hd
  · have hd' : (o.direct_tool_execution env 0 q s).1.success = false := by
      cases hb : (o.direct_tool_execution env 0 q s).1.success
      · rfl
      · exact absurd hb hd
    cases ha : env.agent with
    | ok out =>
      obtain ⟨hs, hr, hev⟩ := query_agent_ok_proj o env q s out hd' ha
      refine ⟨by rw [hev]; rfl, fun ht => absurd ht hd, ?_, ?_, ?_⟩
      · rw [hev, hd']; simp
      · rw [hev, hd']; simp
      · intro m e ham _ _ _
        exact AgentOutcome.noConfusion ham
    | exc msg =>
      by_cases hlim : (strContains (strToLower msg) "iteration limit" || strContains (strToLower msg) "time limit") = true
      · obtain ⟨hq, hev⟩ := query_retry_proj o env q s msg hd' ha hlim
        refine ⟨by rw [hev]; rfl, fun ht => absurd ht hd, ?_, ?_, ?_⟩
        · rw [hev, hd']; simp
        · rw [hev, hd']
          constructor
          · intro _
            exact ⟨rfl, msg, rfl, hlim⟩
          · intro _
            simp
        · intro m e ham hlim2 h0 h1
          rw [hq, direct_fail_record o env 1 q _ e h1]
          exact ⟨rfl, rfl⟩
      · have hlim' : (strContains (strToLower msg) "iteration limit" || strContains (strToLower msg) "time limit") = false := by
          cases hb : (strContains (strToLower msg) "iteration limit" || strContains (strToLower msg) "time limit")
          · rfl
          · exact absurd hb hlim
        obtain ⟨hq, hev⟩ := query_fallback_proj o env q s msg hd' ha hlim'
        refine ⟨by rw [hev]; rfl, fun ht => absurd ht hd, ?_, ?_, ?_⟩
        · rw [hev, hd']; simp
        · rw [hev]
          constructor
          · intro hmem
            simp at hmem
          · intro hx
            obtain ⟨-, m, hm, hlim2⟩ := hx
            have hmm : msg = m := (AgentOutcome.exc.injEq msg m).mp hm
            rw [← hmm] at hlim2
            exact absurd hlim2 hlim
        · intro m e ham hlim2 _ _
          have hmm : msg = m := (AgentOutcome.exc.injEq msg m).mp ham
          rw [← hmm] at hlim2
          exact absurd hlim2 hlim

/-- C3 counterexample: direct attempt fails, the agent raises its
iteration-limit error, the direct retry fails too — the final
`success = false` response text names the direct tool execution failure
and mentions none of "iteration", "time limit" or "parsing". -/
theorem orchestrator_retry_failure_text_cex :
    (orchC3x.query envC3x "q1" GenieState.init).1.success = false ∧
    (orchC3x.query envC3x "q1" GenieState.init).1.response =
      "I encountered an issue with direct tool execution: boom1. Please check your Databricks configuration and try again." ∧
    strContains (orchC3x.query envC3x "q1" GenieState.init).1.response "iteration" = false ∧
    strContains (orchC3x.query envC3x "q1" GenieState.init).1.response "time limit" = false ∧
    strContains (orchC3x.query envC3x "q1" GenieState.init).1.response "parsing" = false := by
  refine ⟨?_, ?_, ?_, ?_, ?_⟩ <;> rfl

/-! ## C4 -/

/-- C4: when every start-conversation endpoint variant fails (here: HTTP
401 on the first variant, which breaks the probe loop), the loop computes
the detailed class text "Authentication failed (401)..." into its local
`last_error`, but the `hasattr`-guarded store never creates the
`_last_error` attribute, so `_run` falls back to `getattr`'s default and
returns the generic "Failed to start conversation with Genie. Unknown
error" — the failure text the caller sees names no HTTP status or class. -/
theorem start_failure_text_bug :
    (genieC4.run envC4 "q" none GenieState.init).1 =
      "Failed to start conversation with Genie. Unknown error" ∧
    (genieC4.start_conversation envC4.start GenieState.init).lastErrorLocal =
      some "Authentication failed (401). Check your DATABRICKS_TOKEN permissions." ∧
    strContains (genieC4.run envC4 "q" none GenieState.init).1 "401" = false := by
  refine ⟨?_, ?_, ?_⟩ <;> rfl

/-! ## C5 -/

theorem tryFormats_none (oracle : Nat → String → EnhanceOutcome) (prompt original : String) :
    ∀ (n i : Nat),
    (∀ j, i ≤ j → j < i + n → enhanceFormatUsable original (oracle j prompt) = false) →
    tryFormats oracle prompt original i n = none := by
  intro n
  induction n with
  | zero => intro i _; rfl
  | succ m ih =>
    intro i h
    have hu := h i (Nat.le_refl i) (by omega)
    cases ho : oracle i prompt with
    | exc =>
      unfold tryFormats
      rw [ho]
      exact ih (i + 1) (fun j h1 h2 => h j (by omega) (by omega))
    | resp status body =>
      rw [ho] at hu
      simp only [enhanceFormatUsable, Bool.and_eq_false_iff] at hu
      unfold tryFormats
      rw [ho]
      dsimp only
      rcases hu with hu | hu
      · simp only [hu, Bool.false_eq_true, if_false]
        exact ih (i + 1) (fun j h1 h2 => h j (by omega) (by omega))
      · cases hex : extractEnhanced original body with
        | some r => rw [hex] at hu; simp at hu
        | none =>
          dsimp only
          split <;> exact ih (i + 1) (fun j h1 h2 => h j (by omega) (by omega))

/-- C5: `enhance` is the identity on the draft whenever the endpoint is
unconfigured (empty endpoint name) or no payload format obtains an HTTP
200 with a recognizable response shape; the embedded `_run` is a total
function, so it never raises. -/
theorem enhance_identity (host token endpoint_name : String)
    (oracle : Nat → String → EnhanceOutcome) (original sql_query query_results : String)
    (h : endpoint_name = "" ∨
      ∀ j, j < 2 → enhanceFormatUsable original
        (oracle j (ResponseEnhancementTool.create_enhancement_prompt original sql_query query_results)) = false) :
    (ResponseEnhancementTool.make host token endpoint_name).run oracle original sql_query query_results =
      original := by
  rcases h with h | h
  · subst h
    simp [ResponseEnhancementTool.make, ResponseEnhancementTool.run]
  · simp only [ResponseEnhancementTool.run]
    split
    · rfl
    · rw [tryFormats_none oracle _ original 2 0 (fun j h1 h2 => h j (by omega))]

/-- C5 witness: the identity property applied with an empty endpoint
name. -/
theorem enhance_identity_witness :
    (ResponseEnhancementTool.make "https://h" "tok" "").run (fun _ _ => .exc) "draft text" "" "" =
      "draft text" :=
  enhance_identity "https://h" "tok" "" (fun _ _ => .exc) "draft text" "" "" (Or.inl rfl)

/-! ## C6 -/

/-- C6: a COMPLETED message with one `query_result` attachment (query
text `qt`, statement `st1`) whose statement endpoint returns schema
columns `a`, `b` and data_array `[[1, 2]]` produces a QueryResult whose
ResultTable has exactly this shape — 1 row, 2 columns — and whose sql
field equals the attachment's query text. -/
theorem completed_attachment_result (qt : String) :
    (orchC6.query (envC6 qt) "show data" GenieState.init).1.dataframe =
      some { columns := ["a", "b"], data := [[.vnum 1, .vnum 2]] } ∧
    ((orchC6.query (envC6 qt) "show data" GenieState.init).1.dataframe.map
      (fun df => (df.data.length, df.columns.length))) = some (1, 2) ∧
    (orchC6.query (envC6 qt) "show data" GenieState.init).1.sql_query = some qt ∧
    (orchC6.query (envC6 qt) "show data" GenieState.init).1.success = true := by
  refine ⟨?_, ?_, ?_, ?_⟩ <;> rfl

/-! ## C7 -/

theorem postProcess_id (q c : String) (hne : (c == "") = false)
    (ht : strContains c "Query timed out" = false) : postProcess q c = c := by
  unfold postProcess
  rw [hne, ht]
  simp

/-- C7 counterexample: a COMPLETED message with no attachments and
content "All good" yields a QueryResult whose response is the
direct-execution preamble plus the content — not the bare message
content the claim states. -/
theorem completed_no_attachments_cex :
    (orchC7.query (envC7 "All good") "q1" GenieState.init).1.response =
      "Based on your question 'q1', here are the results from the business intelligence system:\n\nAll good" ∧
    (orchC7.query (envC7 "All good") "q1" GenieState.init).1.response ≠ "All good" ∧
    (orchC7.query (envC7 "All good") "q1" GenieState.init).1.dataframe = none ∧
    (orchC7.query (envC7 "All good") "q1" GenieState.init).1.sql_query = none := by
  refine ⟨?_, ?_, ?_, ?_⟩
  · rfl
  · decide
  · rfl
  · rfl

/-- C7 (amended): a COMPLETED message with no attachments yields a
QueryResult with no ResultTable and no SQL text whose response is the
direct-execution preamble "Based on your question '...'" followed by the
message content verbatim (so the response contains — rather than equals —
the content), provided the content is non-empty and does not itself
trigger the failure-notice or timeout rewrite branches. -/
theorem completed_no_attachments_amended (c question : String)
    (hne : (c == "") = false)
    (hf : strContains c "Failed" = false) (herr : strContains c "Error" = false)
    (hcfg : strContains c "Configuration" = false)
    (ht : strContains c "Query timed out" = false) :
    (orchC7.query (envC7 c) question GenieState.init).1.response =
      "Based on your question '" ++ question ++ "', here are the results from the business intelligence system:" ++ "\n\n" ++ c ∧
    strContains (orchC7.query (envC7 c) question GenieState.init).1.response c = true ∧
    (orchC7.query (envC7 c) question GenieState.init).1.dataframe = none ∧
    (orchC7.query (envC7 c) question GenieState.init).1.sql_query = none ∧
    (orchC7.query (envC7 c) question GenieState.init).1.success = true := by
  have hd0 : (orchC7.direct_tool_execution (envC7 c) 0 question GenieState.init).1 =
      { response :=
          if strContains (postProcess question c) "Failed" ||
             strContains (postProcess question c) "Error" ||
             strContains (postProcess question c) "Configuration" then
            "I encountered an issue accessing the business intelligence data: " ++ postProcess question c
          else
            "Based on your question '" ++ question ++ "', here are the results from the business intelligence system:" ++ "\n\n" ++ postProcess question c,
        dataframe := none, sql_query := none, conversation_id := some "conv1",
        success := true } := rfl
  have hpp := postProcess_id question c hne ht
  have hq : (orchC7.query (envC7 c) question GenieState.init).1 =
      (orchC7.direct_tool_execution (envC7 c) 0 question GenieState.init).1 :=
    (query_of_direct_success _ _ _ _ (by rw [hd0])).1
  rw [hq, hd0, hpp, hf, herr, hcfg]
  refine ⟨rfl, ?_, rfl, rfl, rfl⟩
  exact strContains_suffix_self _ _

/-- C7 witness: the amended theorem at content "All fine" and question
"q1". -/
theorem completed_no_attachments_witness :
    (orchC7.query (envC7 "All fine") "q1" GenieState.init).1.response =
      "Based on your question '" ++ "q1" ++ "', here are the results from the business intelligence system:" ++ "\n\n" ++ "All fine" ∧
    strContains (orchC7.query (envC7 "All fine") "q1" GenieState.init).1.response "All fine" = true ∧
    (orchC7.query (envC7 "All fine") "q1" GenieState.init).1.dataframe = none ∧
    (orchC7.query (envC7 "All fine") "q1" GenieState.init).1.sql_query = none ∧
    (orchC7.query (envC7 "All fine") "q1" GenieState.init).1.success = true :=
  completed_no_attachments_amended "All fine" "q1" rfl (by decide) (by decide) (by decide) (by decide)

/-! ## C8 -/

/-- C8: whenever any of host, token or space id is empty, `_run` returns
the deterministic mock response, leaves the tool state untouched and
issues no HTTP request (empty request trace); and for the scenario
orchestrator (host "https://demo", token "", space "S1") the QueryResult
has `success = true`. -/
theorem unconfigured_mock_mode (t : GenieQueryTool) (genv : GenieEnv) (question : String)
    (s : GenieState) (env : OrchEnv)
    (hempty : t.host = "" ∨ t.token = "" ∨ t.space_id = "")
    (hexc : env.directExc 0 = none) :
    t.run genv question none s = (t.mock_response question, s, []) ∧
    (orchC8.query env question s).1.success = true := by
  constructor
  · rcases hempty with h | h | h <;> simp [GenieQueryTool.run, h]
  · have hs := direct_success_of_no_exc orchC8 env 0 question s hexc
    rw [(query_of_direct_success orchC8 env question s hs).1]
    exact hs

/-- C8 witness: the mock-mode theorem at the scenario tool (its token is
empty) with a concrete question and environment. -/
theorem unconfigured_mock_mode_witness :
    orchC8.genieTool.run (envC8w.genieAt 0) "What are the top business units?" none GenieState.init =
      (orchC8.genieTool.mock_response "What are the top business units?", GenieState.init, []) ∧
    (orchC8.query envC8w "What are the top business units?" GenieState.init).1.success = true :=
  unconfigured_mock_mode orchC8.genieTool (envC8w.genieAt 0) "What are the top business units?"
    GenieState.init envC8w (Or.inr (Or.inl rfl)) rfl

/-! ## C9 -/

theorem startLoop_spec (t : GenieQueryTool) (oracle : String → StartOutcome) :
    ∀ (urls : List String) (le : Option String),
    (startLoop t oracle le urls).1 = specProbeResult oracle urls ∧
    (startLoop t oracle le urls).2.2 = specProbeTrace oracle urls := by
  intro urls
  induction urls with
  | nil => intro le; exact ⟨rfl, rfl⟩
  | cons u rest ih =>
    intro le
    cases ho : oracle u with
    | ok body =>
      exact ⟨by simp [startLoop, ho, specProbeResult],
             by simp [startLoop, ho, specProbeTrace, probeStops]⟩
    | httpCode code text =>
      by_cases h1 : (code == 401) = true
      · exact ⟨by simp [startLoop, ho, specProbeResult, h1],
               by simp [startLoop, ho, specProbeTrace, probeStops, h1]⟩
      · by_cases h3 : (code == 403) = true
        · exact ⟨by simp [startLoop, ho, specProbeResult, h1, h3],
                 by simp [startLoop, ho, specProbeTrace, probeStops, h1, h3]⟩
        · by_cases h4 : (code == 404) = true
          · constructor
            · simp only [startLoop, ho, h1, h3, h4]
              simp [specProbeResult, ho, h1, h3]
              exact (ih _).1
            · simp only [startLoop, ho, h1, h3, h4]
              simp [specProbeTrace, probeStops, ho, h1, h3]
              exact (ih _).2
          · constructor
            · simp only [startLoop, ho, h1, h3, h4]
              simp [specProbeResult, ho, h1, h3]
              exact (ih _).1
            · simp only [startLoop, ho, h1, h3, h4]
              simp [specProbeTrace, probeStops, ho, h1, h3]
              exact (ih _).2
    | timeout =>
      constructor
      · simp only [startLoop, ho]
        simp [specProbeResult, ho]
        exact (ih _).1
      · simp only [startLoop, ho]
        simp [specProbeTrace, probeStops, ho]
        exact (ih _).2
    | connError =>
      constructor
      · simp only [startLoop, ho]
        simp [specProbeResult, ho]
        exact (ih _).1
      · simp only [startLoop, ho]
        simp [specProbeTrace, probeStops, ho]
        exact (ih _).2
    | exc msg =>
      constructor
      · simp only [startLoop, ho]
        simp [specProbeResult, ho]
        exact (ih _).1
      · simp only [startLoop, ho]
        simp [specProbeTrace, probeStops, ho]
        exact (ih _).2

theorem start_conversation_eqs (t : GenieQueryTool) (oracle : String → StartOutcome)
    (s : GenieState) :
    (t.start_conversation oracle s).result = (startLoop t oracle none t.startEndpoints).1 ∧
    (t.start_conversation oracle s).trace = (startLoop t oracle none t.startEndpoints).2.2 := by
  simp only [GenieQueryTool.start_conversation]
  cases hr : (startLoop t oracle none t.startEndpoints).1 <;> simp [hr]

/-- C9 (amended): `_start_conversation` probes exactly the four endpoint
variants api/2.0 start-conversation, api/2.1 start-conversation, api/2.0
conversations, api/2.1 conversations, in this fixed order; it moves to
the next variant after a 404, another HTTP code, or a request exception,
and stops at the current variant on HTTP 200 (returning its body) — but
also on 401 and 403, which abort the probing immediately without trying
the remaining variants (the counterexample shows a 200 left unreached
behind a 401). -/
theorem start_probe_order (t : GenieQueryTool) (oracle : String → StartOutcome)
    (s : GenieState) :
    (t.start_conversation oracle s).trace = specProbeTrace oracle t.startEndpoints ∧
    (t.start_conversation oracle s).result = specProbeResult oracle t.startEndpoints ∧
    t.startEndpoints =
      [ t.host ++ "/api/2.0/genie/spaces/" ++ t.space_id ++ "/start-conversation",
        t.host ++ "/api/2.1/genie/spaces/" ++ t.space_id ++ "/start-conversation",
        t.host ++ "/api/2.0/genie/spaces/" ++ t.space_id ++ "/conversations",
        t.host ++ "/api/2.1/genie/spaces/" ++ t.space_id ++ "/conversations" ] :=
  ⟨(start_conversation_eqs t oracle s).2.trans (startLoop_spec t oracle t.startEndpoints none).2,
   (start_conversation_eqs t oracle s).1.trans (startLoop_spec t oracle t.startEndpoints none).1,
   rfl⟩

/-- C9 counterexample: the first variant answers 401 while the second
variant would answer HTTP 200; probing stops after the first variant
with no conversation, so the loop does not continue "until one returns
HTTP 200 or all variants are exhausted" as the claim states. -/
theorem start_probe_order_cex :
    (genieC9.start_conversation oracleC9 GenieState.init).trace =
      ["https://h/api/2.0/genie/spaces/SP/start-conversation"] ∧
    (genieC9.start_conversation oracleC9 GenieState.init).result = none ∧
    oracleC9 "https://h/api/2.1/genie/spaces/SP/start-conversation" =
      .ok { conversation_id := some "c", message_id := some "m" } := by
  refine ⟨?_, ?_, ?_⟩ <;> rfl

/-! ## C10 -/

theorem direct_issue_notice (o : BusinessIntelligenceAgent) (env : OrchEnv) (n : Nat)
    (question t : String) (s : GenieState)
    (hexc : env.directExc n = none)
    (hg : (o.genieTool.run (env.genieAt n) question none s).1 = t)
    (hfail : (strContains t "Failed" || strContains t "Error" || strContains t "Configuration") = true) :
    (o.direct_tool_execution env n question s).1.response =
      "I encountered an issue accessing the business intelligence data: " ++ t := by
  simp only [BusinessIntelligenceAgent.direct_tool_execution, hexc]
  rw [hg, hfail]
  simp

/-- C10: when the genie tool returns a failure-describing text
(containing "Failed", "Error" or "Configuration") without raising, the
orchestrator still reports `success = true`, and the response is the
issue notice with the tool's text embedded verbatim. -/
theorem tool_failure_text_success (o : BusinessIntelligenceAgent) (env : OrchEnv)
    (question t : String) (s : GenieState)
    (hexc : env.directExc 0 = none)
    (hg : (o.genieTool.run (env.genieAt 0) question none s).1 = t)
    (hfail : (strContains t "Failed" || strContains t "Error" || strContains t "Configuration") = true) :
    (o.query env question s).1.success = true ∧
    (o.query env question s).1.response =
      "I encountered an issue accessing the business intelligence data: " ++ t := by
  have hs := direct_success_of_no_exc o env 0 question s hexc
  rw [(query_of_direct_success o env question s hs).1]
  exact ⟨hs, direct_issue_notice o env 0 question t s hexc hg hfail⟩

/-- C10 witness: the placeholder-token configuration error text contains
"Configuration" and "Error"; the orchestrator wraps it in the issue
notice and reports success. -/
theorem tool_failure_text_success_witness :
    (orchC10w.query envC10w "q" GenieState.init).1.success = true ∧
    (orchC10w.query envC10w "q" GenieState.init).1.response =
      "I encountered an issue accessing the business intelligence data: " ++
        "Configuration Error: DATABRICKS_TOKEN is still set to placeholder value. Please update app.yaml with your actual Databricks personal access token." :=
  tool_failure_text_success orchC10w envC10w "q"
    "Configuration Error: DATABRICKS_TOKEN is still set to placeholder value. Please update app.yaml with your actual Databricks personal access token."
    GenieState.init rfl rfl (by decide)
